import Mathlib

/-!
Verification of the chat-session-summary pipeline (johnpham4/chat-session-summary).

This file gives a shallow embedding of the context-management pipeline:
the persistent records (sessions, messages, summaries) and the pure logic of
  - src/src/infrastructure/db/postgres/orm.py   (get_by_id, get_all)
  - src/src/domain/chat.py                      (load_messages, add_message, delete_many)
  - src/src/application/chat/summarizer.py      (summarize_chat with soft delete)
  - src/src/application/chat/summarization.py   (summarize_chat without delete,
                                                 should_summarize, get_latest_summary)
  - src/src/application/chat/context_augment.py (build_messages)
  - src/src/application/chat/chat.py            (preprocess_query, prepare_context,
                                                 send_message)

External effects are made explicit:
  - the database is a record of three tables plus a monotone clock used for the
    fresh ids / creation timestamps the database assigns on insert;
  - the language-model calls (structured extraction for summarization and query
    classification, free-text generation) are oracle functions passed in;
  - the tiktoken token counter is an oracle function String to Nat.

Representation notes (the Python source is mid-refactor and is normalized in a
few places; each normalization is flagged at the definition it concerns):
  - messages are one record type carrying id, role, content; the source mixes a
    bare ChatMessage and an [id, ChatMessage] pair representation for the same
    in-memory list, and both are embedded as MessageRow;
  - SELECT without ORDER BY (get_all) is modelled as table order;
  - reads of attributes that only feed logging calls are dropped.
-/

/-- Role of a chat turn, the Literal["user", "assistant", "system"] of
src/src/domain/chat.py. -/
inductive Role
  | user
  | assistant
  | system
deriving DecidableEq, Repr

/-- Rendering of a role as the Python string it is stored as. -/
def Role.toStr : Role → String
  | .user => "user"
  | .assistant => "assistant"
  | .system => "system"

/-- Row of the chat_message table (ChatMessageRecord in src/src/domain/chat.py),
also used for the in-memory session.messages entries, which in the source carry
the same id / role / content data. -/
structure MessageRow where
  id : Nat
  session_id : Nat
  role : Role
  content : String
  created_at : Nat
  is_deleted : Bool
deriving DecidableEq, Repr

/-- Row of the chat_session table (ChatSession in src/src/domain/chat.py); the
in-memory messages list is threaded separately through the pipeline functions. -/
structure SessionRow where
  id : Nat
  name : String
  created_at : Nat
  is_deleted : Bool
deriving DecidableEq, Repr

/-- UserProfile of src/src/domain/chat.py. -/
structure UserProfile where
  preferences : List String
  constraints : List String
deriving DecidableEq, Repr

/-- SummaryContent of src/src/domain/chat.py: the structured-extraction schema
the summarizing model call fills in. -/
structure SummaryContent where
  user_profile : UserProfile
  key_facts : List String
  decisions : List String
  open_questions : List String
  todos : List String
deriving DecidableEq, Repr

/-- Row of the chat_session_summary table (ChatSessionSummary in
src/src/domain/chat.py). -/
structure ChatSessionSummary where
  id : Nat
  session_id : Nat
  user_profile : UserProfile
  key_facts : List String
  decisions : List String
  open_questions : List String
  todos : List String
  created_at : Nat
  updated_at : Nat
deriving DecidableEq, Repr

/-- SessionContext of src/src/domain/query.py. -/
structure SessionContext where
  user_profile_prefs : List String
  open_questions : List String
deriving DecidableEq, Repr

/-- QueryRewriting of src/src/domain/query.py: the structured result of the
query-disambiguation model call (the DisambiguationResult of the spec). -/
structure QueryRewriting where
  original_query : String
  is_ambiguous : Bool
  rewritten_query : Option String
  needed_context_from_memory : SessionContext
  clarifying_questions : List String
  final_augmented_context : String
deriving DecidableEq, Repr

/-- Langchain message values built by prepare_context / build_messages:
SystemMessage, HumanMessage, AIMessage. -/
inductive LCMessage
  | system (content : String)
  | human (content : String)
  | ai (content : String)
deriving DecidableEq, Repr

/-- The persistent store: the three tables of the schema plus a monotone clock
standing for the ids and creation timestamps the database assigns on insert
(spec section 6: a monotonically assigned creation timestamp is the sole
ordering key). -/
structure Db where
  sessions : List SessionRow
  chat_message : List MessageRow
  chat_session_summary : List ChatSessionSummary
  clock : Nat
deriving DecidableEq, Repr

/-- Ordering used by ORDER BY created_at DESC. -/
def created_desc (a b : MessageRow) : Prop := b.created_at ≤ a.created_at

instance : DecidableRel created_desc := fun a b => Nat.decLe b.created_at a.created_at

instance : IsTotal MessageRow created_desc := ⟨fun a b => Nat.le_total b.created_at a.created_at⟩

instance : IsTrans MessageRow created_desc := ⟨fun _ _ _ hab hbc => le_trans hbc hab⟩

/-- ORDER BY created_at DESC over a set of rows. -/
def order_by_created_desc (rows : List MessageRow) : List MessageRow :=
  List.insertionSort created_desc rows

/-- ChatSession.load_messages (src/src/domain/chat.py lines 48-66): fetch the
non-deleted messages of the session newest first with LIMIT / OFFSET, then
store them reversed (oldest first). -/
def load_messages (db : Db) (sid : Nat) (limit : Nat) (page : Nat) : List MessageRow :=
  let offset := page * limit
  let rows := order_by_created_desc
    (db.chat_message.filter (fun m => m.session_id == sid && m.is_deleted == false))
  (((rows.drop offset).take limit)).reverse

/-- ChatSession.add_message (src/src/domain/chat.py lines 78-90): append the new
turn to the in-memory list and INSERT a row; the database assigns id and
created_at, modelled by the clock. -/
def add_message (db : Db) (session_messages : List MessageRow) (sid : Nat)
    (role : Role) (content : String) : Db × List MessageRow :=
  let row : MessageRow :=
    { id := db.clock, session_id := sid, role := role, content := content,
      created_at := db.clock, is_deleted := false }
  ({ db with chat_message := db.chat_message ++ [row], clock := db.clock + 1 },
   session_messages ++ [row])

/-- ChatMessageRecord.delete_many (src/src/domain/chat.py lines 23-38): soft
delete, for the given session, every message whose id is in the list; no-op on
the empty list. -/
def delete_many (db : Db) (sid : Nat) (ids : List Nat) : Db :=
  if ids = [] then db
  else
    { db with chat_message := db.chat_message.map (fun m =>
        if m.session_id = sid ∧ m.id ∈ ids then { m with is_deleted := true } else m) }

/-- BasePostgresRecord.get_by_id for sessions (src/src/infrastructure/db/postgres/orm.py
lines 69-78): SELECT by id only — note there is no is_deleted filter. -/
def get_by_id (db : Db) (sid : Nat) : Option SessionRow :=
  db.sessions.find? (fun s => s.id == sid)

/-- BasePostgresRecord.get_all for summaries (src/src/infrastructure/db/postgres/orm.py
lines 80-89): SELECT * LIMIT n with no ORDER BY, modelled as the first n rows in
table order. -/
def get_all (db : Db) (limit : Nat) : List ChatSessionSummary :=
  db.chat_session_summary.take limit

/-- Semantics of the Python max(xs, key) builtin on a non-empty list: the first
element whose key is maximal. -/
def pyMaxBy (key : ChatSessionSummary → Nat) : List ChatSessionSummary → Option ChatSessionSummary
  | [] => none
  | x :: xs => some (xs.foldl (fun acc y => if key acc < key y then y else acc) x)

/-- ChatSummarizeService.get_latest_summary (src/src/application/chat/summarization.py
lines 96-107): fetch at most 1000 summaries (all sessions), keep those of this
session, and return the one with the greatest updated_at, or none. -/
def get_latest_summary (db : Db) (sid : Nat) : Option ChatSessionSummary :=
  let summaries := get_all db 1000
  let session_summaries := summaries.filter (fun s => s.session_id == sid)
  pyMaxBy (fun s => s.updated_at) session_summaries

/-- Python negative-start slicing a[-n:] (and a[-0:] = a, the whole list). -/
def lastN (l : List MessageRow) (n : Nat) : List MessageRow :=
  if n = 0 then l else l.drop (l.length - n)

/-- Settings (src/src/infrastructure/settings.py). -/
structure Settings where
  TOKEN_THRESHOLD : Nat
  MAX_CONTEXT_MESSAGES : Nat
  KEEP_RECENT : Nat
deriving DecidableEq, Repr

/-- The default values of Settings: threshold 3000, context window 12,
keep-recent 3. -/
def default_settings : Settings :=
  { TOKEN_THRESHOLD := 3000, MAX_CONTEXT_MESSAGES := 12, KEEP_RECENT := 3 }

/-- Serialization of a run of turns for the summarizing model call
(ChatSummarizeService._create_summary): one "role: content" line per turn in
chronological order. -/
def conversation_text (msgs : List MessageRow) : String :=
  String.intercalate "\n" (msgs.map (fun m => Role.toStr m.role ++ ": " ++ m.content))

/-- Index where the compressible turns start: skip a single leading system turn
if present (summarizer.py line 91 / summarization.py line 75). -/
def start_index (msgs : List MessageRow) : Nat :=
  match msgs with
  | m :: _ => if m.role = Role.system then 1 else 0
  | [] => 0

/-- Python slice messages[s:-k] (summarizer.py line 97): the compression window.
For k = 0 the Python slice messages[s:-0] is messages[s:0], the empty list. -/
def to_summarize_slice (msgs : List MessageRow) (s k : Nat) : List MessageRow :=
  if k = 0 then [] else (msgs.drop s).take (msgs.length - k - s)

/-- ChatSummarizeService._create_summary (summarizer.py lines 116-134): run the
structured-extraction oracle over the serialized window and stamp the session id;
the database clock provides the fresh id and timestamps. -/
def create_summary (oracle : String → SummaryContent) (msgs : List MessageRow)
    (sid : Nat) (clock : Nat) : ChatSessionSummary :=
  let out := oracle (conversation_text msgs)
  { id := clock, session_id := sid, user_profile := out.user_profile,
    key_facts := out.key_facts, decisions := out.decisions,
    open_questions := out.open_questions, todos := out.todos,
    created_at := clock, updated_at := clock }

/-- Result of a summarize_chat run: the summary returned (none on the skip
path), the store afterwards, and whether the soft-delete step succeeded
(false models a store failure raised by delete_many after the summary was
already saved). -/
structure SummarizeResult where
  summary : Option ChatSessionSummary
  db : Db
  delete_ok : Bool
deriving DecidableEq, Repr

namespace Summarizer

/-- ChatSummarizeService.summarize_chat of src/src/application/chat/summarizer.py
(lines 86-114), the soft-deleting variant: skip unless more than keep_recent
turns are eligible after dropping a single leading system turn; otherwise
extract a summary of the window, save it, then soft-delete the window turns via
delete_many. The delete_ok flag makes the outcome of the delete step explicit:
when it fails the function has already saved the summary and performs no undo
(there is no surrounding transaction in the source). -/
def summarize_chat (oracle : String → SummaryContent) (keep_recent : Nat) (db : Db)
    (sid : Nat) (session_messages : List MessageRow) (delete_ok : Bool) : SummarizeResult :=
  let s := start_index session_messages
  if session_messages.length - s ≤ keep_recent then
    { summary := none, db := db, delete_ok := true }
  else
    let to_sum := to_summarize_slice session_messages s keep_recent
    let summary := create_summary oracle to_sum sid db.clock
    let db1 := { db with
      chat_session_summary := db.chat_session_summary ++ [summary],
      clock := db.clock + 1 }
    if delete_ok then
      { summary := some summary,
        db := delete_many db1 sid (to_sum.map (fun m => m.id)), delete_ok := true }
    else
      { summary := some summary, db := db1, delete_ok := false }

end Summarizer

namespace Summarization

/-- ChatSummarizeService.summarize_chat of src/src/application/chat/summarization.py
(lines 70-94), the variant imported by ChatService: same trigger guard and window,
saves the summary, but performs no soft delete of the summarized turns.
Normalization: the source reads self.KEEP_RECENT, an attribute the class never
sets (the configured value lives in settings.KEEP_RECENT); the embedding takes
keep_recent as the parameter both spellings denote. -/
def summarize_chat (oracle : String → SummaryContent) (keep_recent : Nat) (db : Db)
    (sid : Nat) (session_messages : List MessageRow) : Option ChatSessionSummary × Db :=
  let s := start_index session_messages
  if session_messages.length - s ≤ keep_recent then
    (none, db)
  else
    let to_sum := to_summarize_slice session_messages s keep_recent
    let summary := create_summary oracle to_sum sid db.clock
    (some summary,
     { db with
       chat_session_summary := db.chat_session_summary ++ [summary],
       clock := db.clock + 1 })

end Summarization

/-- ChatSummarizeService.should_summarize (summarization.py lines 55-68): join
all currently loaded turn contents with single spaces, count tokens with the
tokenizer oracle, and compare strictly against the threshold. -/
def should_summarize (tok : String → Nat) (threshold : Nat)
    (session_messages : List MessageRow) : Bool :=
  threshold < tok (String.intercalate " " (session_messages.map (fun m => m.content)))

/-- JSON rendering of a list of strings. -/
def json_str_list (l : List String) : String :=
  "[" ++ String.intercalate "," (l.map (fun s => "\"" ++ s ++ "\"")) ++ "]"

/-- Pydantic model_dump_json of a ChatSessionSummary, field order as declared:
every field is rendered, empty collections included. -/
def summary_model_dump_json (s : ChatSessionSummary) : String :=
  "\x7b\"id\":" ++ toString s.id ++
  ",\"session_id\":" ++ toString s.session_id ++
  ",\"user_profile\":\x7b\"preferences\":" ++ json_str_list s.user_profile.preferences ++
  ",\"constraints\":" ++ json_str_list s.user_profile.constraints ++
  "\x7d,\"key_facts\":" ++ json_str_list s.key_facts ++
  ",\"decisions\":" ++ json_str_list s.decisions ++
  ",\"open_questions\":" ++ json_str_list s.open_questions ++
  ",\"todos\":" ++ json_str_list s.todos ++
  ",\"created_at\":" ++ toString s.created_at ++
  ",\"updated_at\":" ++ toString s.updated_at ++ "\x7d"

/-- Mapping of a stored turn to the chat message sent to the model: user and
assistant turns map by role, system turns are dropped (the loop bodies of
prepare_context and build_messages). -/
def role_to_lc (m : MessageRow) : Option LCMessage :=
  match m.role with
  | Role.user => some (LCMessage.human m.content)
  | Role.assistant => some (LCMessage.ai m.content)
  | Role.system => none

/-- ChatService._prepare_context (src/src/application/chat/chat.py lines
161-181): the message list actually handed to the model by send_message and
stream_message. A fixed system prompt; if a summary is present, one system
message carrying the full JSON dump of the summary; then the last
MAX_CONTEXT_MESSAGES turns mapped by role with system turns dropped. No
final query message is appended. -/
def prepare_context (system_prompt : String) (session_messages : List MessageRow)
    (summary : Option ChatSessionSummary) (max_context_messages : Nat) : List LCMessage :=
  let messages := [LCMessage.system system_prompt]
  let messages := match summary with
    | some s =>
        messages ++ [LCMessage.system ("[Session Memory]\n" ++ summary_model_dump_json s)]
    | none => messages
  (lastN session_messages max_context_messages).foldl (fun acc m =>
    match role_to_lc m with
    | some lc => acc ++ [lc]
    | none => acc) messages

/-- The memory text rendered by ContextAugmentService.build_messages when at
least one of the two rendered fields is non-empty. -/
def memory_text (key_facts open_questions : List String) : String :=
  "[Session Memory]\n" ++ String.intercalate "\n\n"
    ((if key_facts ≠ [] then ["Key facts:\n- " ++ String.intercalate "\n- " key_facts] else [])
      ++ (if open_questions ≠ [] then
            ["Open questions:\n- " ++ String.intercalate "\n- " open_questions] else []))

/-- Python expression rewritten_query or original_query: the rewrite when it is
a non-empty string, otherwise the original query. -/
def final_query (q : QueryRewriting) : String :=
  match q.rewritten_query with
  | some r => if r = "" then q.original_query else r
  | none => q.original_query

/-- ContextAugmentService.build_messages (src/src/application/chat/context_augment.py
lines 9-53): system prompt; if a summary exists, memory blocks for its non-empty
key_facts and open_questions (the user_profile block is commented out in the
source and decisions / todos are never rendered), the whole memory message
omitted when both lists are empty; the last KEEP_RECENT turns mapped by role
with system turns dropped; and a final user message with the rewritten query if
truthy, else the original query. This method is not called by ChatService:
chat.py line 144 invokes self.context_augment.augment_context, a method
ContextAugmentService does not define. -/
def build_messages (system_prompt : String) (session_messages : List MessageRow)
    (summary : Option ChatSessionSummary) (query_result : QueryRewriting)
    (keep_recent : Nat) : List LCMessage :=
  let messages := [LCMessage.system system_prompt]
  let messages := match summary with
    | none => messages
    | some s =>
        let memory_blocks :=
          (if s.key_facts ≠ [] then
            ["Key facts:\n- " ++ String.intercalate "\n- " s.key_facts] else [])
          ++ (if s.open_questions ≠ [] then
            ["Open questions:\n- " ++ String.intercalate "\n- " s.open_questions] else [])
        if memory_blocks ≠ [] then
          messages ++ [LCMessage.system ("[Session Memory]\n" ++
            String.intercalate "\n\n" memory_blocks)]
        else messages
  let messages := (lastN session_messages keep_recent).foldl (fun acc m =>
    match role_to_lc m with
    | some lc => acc ++ [lc]
    | none => acc) messages
  messages ++ [LCMessage.human (final_query query_result)]

/-- Clarification message synthesized from the clarifying questions
(chat.py lines 100-103). -/
def clarification_text (qs : List String) : String :=
  "Câu hỏi của bạn chưa rõ ràng. Bạn có thể làm rõ :\n\n" ++
    String.intercalate "\n" (qs.map (fun q => "- " ++ q))

/-- Rendering of the recent turns handed to the classifier
(chat.py line 80): one "role: content" string per turn. -/
def recent_render (msgs : List MessageRow) : List String :=
  msgs.map (fun m => Role.toStr m.role ++ ": " ++ m.content)

/-- Observable steps of one pipeline turn, in the order the source performs
them: the store reads and writes and the model calls. -/
inductive Ev
  | get_session_by_id
  | load_messages_ev
  | get_latest_summary_ev
  | classify_llm
  | append_user (content : String)
  | append_assistant (content : String)
  | summary_check
  | summarize_llm
  | augment_context_ev
  | generate_llm
deriving DecidableEq, Repr

/-- Result of ChatService._preprocess_query: the session-not-found error, the
early clarification reply, or the context messages ready for generation. -/
inductive Outcome
  | not_found (msg : String)
  | early (text : String)
  | ready (ctx : List LCMessage)
deriving DecidableEq, Repr

/-- Discriminator for the early outcome. -/
def Outcome.isEarly : Outcome → Bool
  | .early _ => true
  | _ => false

/-- Discriminator for the ready outcome. -/
def Outcome.isReady : Outcome → Bool
  | .ready _ => true
  | _ => false

/-- State after a _preprocess_query run: the store, the in-memory session
message list, the ordered trace of observable steps, and the outcome. -/
structure PreprocessRun where
  db : Db
  session_messages : List MessageRow
  trace : List Ev
  outcome : Outcome
deriving DecidableEq, Repr

/-- The external collaborators of the pipeline: the classifier
(QueryRewritingService.rewrite, taking the query, the latest summary and the
rendered recent turns), the token counter, the summary extractor, and free-text
generation. -/
structure Oracles where
  classify : String → Option ChatSessionSummary → List String → QueryRewriting
  tok : String → Nat
  summarize : String → SummaryContent
  generate : List LCMessage → String

/-- The classify call _preprocess_query makes (chat.py lines 77-87): the
query-rewriting model call applied to the user query, the latest summary of the
session, and the last MAX_CONTEXT_MESSAGES loaded turns rendered as
"role: content" strings. -/
def classified (st : Settings) (orc : Oracles) (db : Db) (sid : Nat)
    (user_message : String) : QueryRewriting :=
  orc.classify user_message (get_latest_summary db sid)
    (recent_render (lastN (load_messages db sid 10 0) st.MAX_CONTEXT_MESSAGES))

/-- ChatService._preprocess_query (src/src/application/chat/chat.py lines
65-159), one turn of the pipeline up to the point where the model would be
called for generation:
  1. look the session up by id — "Session not found" error when absent;
  2. load_messages() (limit 10, page 0);
  3. get_latest_summary;
  4. classify the query via the rewriting model call, against the last
     MAX_CONTEXT_MESSAGES loaded turns and that summary;
  5. persist the user turn;
  6. if the result is ambiguous with no rewrite: persist a clarification
     assistant turn built from the clarifying questions and return it early;
  7. otherwise evaluate should_summarize and, when true, run the imported
     (non-deleting) summarize_chat; then the source re-evaluates
     should_summarize unless the summary variable is None, refetches the
     latest summary when the variable is None or the re-check is true, calls
     the (undefined, result-unused) augment_context, and builds the final
     context with _prepare_context.
Normalizations, each flagged in the doc comments of the callees: the token
count and message count computed at lines 120-123 only feed logging and are
dropped; the augment_context call at line 144 names a method
ContextAugmentService does not define and its result is discarded by the
source, so it is kept as a trace event only. -/
def preprocess_query (st : Settings) (orc : Oracles) (db0 : Db) (chat_id : Nat)
    (user_message : String) (system_prompt : String) : PreprocessRun :=
  match get_by_id db0 chat_id with
  | none =>
      { db := db0, session_messages := [], trace := [Ev.get_session_by_id],
        outcome := Outcome.not_found ("Session " ++ toString chat_id ++ " not found") }
  | some session =>
      let msgs := load_messages db0 session.id 10 0
      let summary0 := get_latest_summary db0 session.id
      let query_result := classified st orc db0 session.id user_message
      let step1 := add_message db0 msgs session.id Role.user user_message
      let db1 := step1.1
      let msgs1 := step1.2
      let trace0 := [Ev.get_session_by_id, Ev.load_messages_ev, Ev.get_latest_summary_ev,
                     Ev.classify_llm, Ev.append_user user_message]
      if query_result.is_ambiguous = true ∧ query_result.rewritten_query = none then
        let ctext := clarification_text query_result.clarifying_questions
        let step2 := add_message db1 msgs1 session.id Role.assistant ctext
        { db := step2.1, session_messages := step2.2,
          trace := trace0 ++ [Ev.append_assistant ctext],
          outcome := Outcome.early ctext }
      else
        let check1 := should_summarize orc.tok st.TOKEN_THRESHOLD msgs1
        let step3 :=
          if check1 then Summarization.summarize_chat orc.summarize st.KEEP_RECENT db1 session.id msgs1
          else (none, db1)
        let summary1 := if check1 then step3.1 else summary0
        let db2 := step3.2
        let check2 := should_summarize orc.tok st.TOKEN_THRESHOLD msgs1
        let refetch := summary1.isNone || check2
        let summary2 := if refetch then get_latest_summary db2 session.id else summary1
        let ctx := prepare_context system_prompt msgs1 summary2 st.MAX_CONTEXT_MESSAGES
        { db := db2, session_messages := msgs1,
          trace := trace0 ++ [Ev.summary_check]
            ++ (if check1 then [Ev.summarize_llm] else [])
            ++ (if summary1.isSome then [Ev.summary_check] else [])
            ++ (if refetch then [Ev.get_latest_summary_ev] else [])
            ++ [Ev.augment_context_ev],
          outcome := Outcome.ready ctx }

instance {α β : Type} [DecidableEq α] [DecidableEq β] : DecidableEq (Except α β) := fun a b =>
  match a, b with
  | Except.ok x, Except.ok y =>
      if h : x = y then isTrue (by rw [h]) else isFalse (by intro hc; cases hc; exact h rfl)
  | Except.error x, Except.error y =>
      if h : x = y then isTrue (by rw [h]) else isFalse (by intro hc; cases hc; exact h rfl)
  | Except.ok _, Except.error _ => isFalse (by intro hc; cases hc)
  | Except.error _, Except.ok _ => isFalse (by intro hc; cases hc)

/-- State after a send_message run: the store, the trace, and either the reply
text or the not-found error. -/
structure SendRun where
  db : Db
  trace : List Ev
  result : Except String String
deriving DecidableEq, Repr

/-- ChatService.send_message (src/src/application/chat/chat.py lines 38-48):
preprocess; on an early clarification return it directly with no generation
call; otherwise call the model on the prepared context and persist the reply as
an assistant turn. -/
def send_message (st : Settings) (orc : Oracles) (db : Db) (chat_id : Nat)
    (user_message : String) (system_prompt : String) : SendRun :=
  let r := preprocess_query st orc db chat_id user_message system_prompt
  match r.outcome with
  | Outcome.not_found e => { db := r.db, trace := r.trace, result := Except.error e }
  | Outcome.early t => { db := r.db, trace := r.trace, result := Except.ok t }
  | Outcome.ready ctx =>
      let reply := orc.generate ctx
      let step := add_message r.db r.session_messages chat_id Role.assistant reply
      { db := step.1, trace := r.trace ++ [Ev.generate_llm, Ev.append_assistant reply],
        result := Except.ok reply }

/-- The compression window of a loaded message list: skip a single leading
system turn, then everything except the last keep_recent turns (the to_summarize
slice of summarize_chat). -/
def window (loaded : List MessageRow) (keep_recent : Nat) : List MessageRow :=
  to_summarize_slice loaded (start_index loaded) keep_recent

/-- Context messages of a ready outcome (empty for the other outcomes). -/
def Outcome.ctx : Outcome → List LCMessage
  | .ready c => c
  | _ => []

/-- A copy of a classification result with the clarifying questions discarded. -/
def discard_clarifications (q : QueryRewriting) : QueryRewriting :=
  { q with clarifying_questions := [] }

/-- Modelled from the spec (section 3 cross-entity invariant; no code in the
repository defines or enforces it): if is_ambiguous is false, the rewritten
query must be absent and the clarifying questions empty; if a rewritten query
is present, the clarifying questions must be empty; if the query is ambiguous
and no rewrite is present, the clarifying questions must be non-empty. -/
def disambiguation_exclusivity (q : QueryRewriting) : Prop :=
  (q.is_ambiguous = false → q.rewritten_query = none ∧ q.clarifying_questions = []) ∧
  (q.rewritten_query.isSome = true → q.clarifying_questions = []) ∧
  (q.is_ambiguous = true → q.rewritten_query = none → q.clarifying_questions ≠ [])

instance (q : QueryRewriting) : Decidable (disambiguation_exclusivity q) := by
  unfold disambiguation_exclusivity; infer_instance

/-- An empty session context, used by the concrete fixtures below. -/
def no_context : SessionContext := { user_profile_prefs := [], open_questions := [] }

/-- A summary-extraction output used by the concrete fixtures below. -/
def fixture_content : SummaryContent :=
  { user_profile := { preferences := [], constraints := [] },
    key_facts := ["kf"], decisions := [], open_questions := [], todos := [] }

/-- A clear (unambiguous, no rewrite) classification result. -/
def clear_result (q : String) : QueryRewriting :=
  { original_query := q, is_ambiguous := false, rewritten_query := none,
    needed_context_from_memory := no_context, clarifying_questions := [],
    final_augmented_context := "" }

/-- Six-turn store for the summarization fixtures: a leading system turn and
five conversation turns for session 1. -/
def c1db : Db :=
  { sessions := [{ id := 1, name := "s", created_at := 0, is_deleted := false }],
    chat_message :=
      [{ id := 10, session_id := 1, role := Role.system, content := "sys", created_at := 10, is_deleted := false },
       { id := 11, session_id := 1, role := Role.user, content := "u1", created_at := 11, is_deleted := false },
       { id := 12, session_id := 1, role := Role.assistant, content := "a1", created_at := 12, is_deleted := false },
       { id := 13, session_id := 1, role := Role.user, content := "u2", created_at := 13, is_deleted := false },
       { id := 14, session_id := 1, role := Role.assistant, content := "a2", created_at := 14, is_deleted := false },
       { id := 15, session_id := 1, role := Role.user, content := "u3", created_at := 15, is_deleted := false }],
    chat_session_summary := [], clock := 100 }

/-- Oracle set returning fixed values, for the concrete runs. -/
def fixture_oracles (q : QueryRewriting) : Oracles :=
  { classify := fun _ _ _ => q, tok := fun _ => 0,
    summarize := fun _ => fixture_content, generate := fun _ => "REPLY" }

/-- Classification result that is ambiguous with no rewrite and no clarifying
questions, violating the exclusivity invariant. -/
def c4_violating : QueryRewriting :=
  { original_query := "hi", is_ambiguous := true, rewritten_query := none,
    needed_context_from_memory := no_context, clarifying_questions := [],
    final_augmented_context := "" }

/-- Classification result carrying a rewrite together with stray clarifying
questions. -/
def c4_rewrite_with_stray : QueryRewriting :=
  { original_query := "hi", is_ambiguous := true, rewritten_query := some "rw",
    needed_context_from_memory := no_context, clarifying_questions := ["stray?"],
    final_augmented_context := "" }

/-- Ambiguous classification result with no rewrite and two clarifying
questions, for the clarification short-circuit fixture. -/
def c6_ambiguous : QueryRewriting :=
  { original_query := "hi", is_ambiguous := true, rewritten_query := none,
    needed_context_from_memory := no_context, clarifying_questions := ["q1", "q2"],
    final_augmented_context := "" }

/-- Classification result with a rewrite present, for the context fixture. -/
def c3_rewritten : QueryRewriting :=
  { original_query := "hi", is_ambiguous := true, rewritten_query := some "REWRITTEN",
    needed_context_from_memory := no_context, clarifying_questions := [],
    final_augmented_context := "" }

/-- Stored summary for session 1 used by the context fixture. -/
def c3_summary : ChatSessionSummary :=
  { id := 50, session_id := 1, user_profile := { preferences := [], constraints := [] },
    key_facts := ["kf"], decisions := [], open_questions := [], todos := [],
    created_at := 20, updated_at := 20 }

/-- Store with two conversation turns and one stored summary for session 1. -/
def c3db : Db :=
  { sessions := [{ id := 1, name := "s", created_at := 0, is_deleted := false }],
    chat_message :=
      [{ id := 10, session_id := 1, role := Role.user, content := "u1", created_at := 10, is_deleted := false },
       { id := 11, session_id := 1, role := Role.assistant, content := "a1", created_at := 11, is_deleted := false }],
    chat_session_summary := [c3_summary], clock := 100 }

/-- Summary whose decisions, todos and user profile are non-empty while key
facts and open questions are empty. -/
def c7_summary : ChatSessionSummary :=
  { id := 51, session_id := 1, user_profile := { preferences := ["p"], constraints := [] },
    key_facts := [], decisions := ["d"], open_questions := [], todos := ["t"],
    created_at := 20, updated_at := 20 }

/-- An empty store. -/
def c8empty : Db :=
  { sessions := [], chat_message := [], chat_session_summary := [], clock := 0 }

/-- Store containing only a soft-deleted session. -/
def c8db : Db :=
  { sessions := [{ id := 7, name := "gone", created_at := 0, is_deleted := true }],
    chat_message := [], chat_session_summary := [], clock := 100 }

/-- A summary row for session 0, replicated to fill the fetch limit. -/
def c9_filler : ChatSessionSummary :=
  { id := 0, session_id := 0, user_profile := { preferences := [], constraints := [] },
    key_facts := [], decisions := [], open_questions := [], todos := [],
    created_at := 1, updated_at := 1 }

/-- The only summary of session 1, stored after 1000 summaries of session 0. -/
def c9_target : ChatSessionSummary :=
  { id := 4242, session_id := 1, user_profile := { preferences := [], constraints := [] },
    key_facts := ["important"], decisions := [], open_questions := [], todos := [],
    created_at := 99, updated_at := 99 }

/-- Store whose summary table holds 1000 summaries of session 0 followed by the
single summary of session 1. -/
def c9db : Db :=
  { sessions := [], chat_message := [],
    chat_session_summary := List.replicate 1000 c9_filler ++ [c9_target], clock := 0 }

/-- Small summary store for the latest-summary witness: two summaries of
session 1 with different update times and one of session 2. -/
def c9db_small : Db :=
  { sessions := [], chat_message := [],
    chat_session_summary :=
      [{ c9_filler with id := 1, session_id := 1, updated_at := 3 },
       { c9_filler with id := 2, session_id := 2, updated_at := 9 },
       { c9_filler with id := 3, session_id := 1, updated_at := 7 }],
    clock := 0 }

/-- Four-turn loaded slice (a system turn plus three eligible turns) for the
summarization-skip witness. -/
def c5_loaded : List MessageRow :=
  [{ id := 10, session_id := 1, role := Role.system, content := "sys", created_at := 10, is_deleted := false },
   { id := 11, session_id := 1, role := Role.user, content := "u1", created_at := 11, is_deleted := false },
   { id := 12, session_id := 1, role := Role.assistant, content := "a1", created_at := 12, is_deleted := false },
   { id := 13, session_id := 1, role := Role.user, content := "u2", created_at := 13, is_deleted := false }]

/-! Helper lemmas shared by the claim theorems. -/

theorem foldl_role_to_lc (l : List MessageRow) (acc : List LCMessage) :
    l.foldl (fun acc m =>
      match role_to_lc m with
      | some lc => acc ++ [lc]
      | none => acc) acc = acc ++ l.filterMap role_to_lc := by
  induction l generalizing acc with
  | nil => simp
  | cons hd tl ih =>
      simp only [List.foldl_cons, List.filterMap_cons]
      cases h : role_to_lc hd with
      | none => simp [h, ih]
      | some lc => simp [h, ih (acc ++ [lc])]

theorem mem_load_messages {db : Db} {sid limit page : Nat} {m : MessageRow}
    (h : m ∈ load_messages db sid limit page) :
    m ∈ db.chat_message ∧ m.session_id = sid ∧ m.is_deleted = false := by
  unfold load_messages at h
  rw [List.mem_reverse] at h
  have h1 : m ∈ order_by_created_desc
      (db.chat_message.filter (fun m => m.session_id == sid && m.is_deleted == false)) :=
    List.mem_of_mem_drop (List.mem_of_mem_take h)
  have h2 : m ∈ db.chat_message.filter (fun m => m.session_id == sid && m.is_deleted == false) :=
    (List.perm_insertionSort created_desc _).mem_iff.mp h1
  have h3 := List.mem_filter.mp h2
  refine ⟨h3.1, ?_, ?_⟩
  · have := h3.2
    simp only [Bool.and_eq_true, beq_iff_eq] at this
    exact this.1
  · have := h3.2
    simp only [Bool.and_eq_true, beq_iff_eq] at this
    exact this.2

theorem nodup_map_mem_eq {α β : Type} {f : α → β} {l : List α}
    (h : (l.map f).Nodup) {x y : α} (hx : x ∈ l) (hy : y ∈ l) (hf : f x = f y) : x = y := by
  induction l with
  | nil => cases hx
  | cons hd tl ih =>
      rw [List.map_cons, List.nodup_cons] at h
      rcases List.mem_cons.mp hx with hx1 | hx1 <;> rcases List.mem_cons.mp hy with hy1 | hy1
      · rw [hx1, hy1]
      · exfalso
        apply h.1
        rw [← hx1, hf]
        exact List.mem_map_of_mem f hy1
      · exfalso
        apply h.1
        rw [← hy1, ← hf]
        exact List.mem_map_of_mem f hx1
      · exact ih h.2 hx1 hy1

theorem pyMaxBy_spec (key : ChatSessionSummary → Nat) (x : ChatSessionSummary)
    (xs : List ChatSessionSummary) {m : ChatSessionSummary}
    (h : pyMaxBy key (x :: xs) = some m) :
    m ∈ x :: xs ∧ ∀ y ∈ x :: xs, key y ≤ key m := by
  have step : ∀ (ys : List ChatSessionSummary) (a : ChatSessionSummary),
      (ys.foldl (fun acc y => if key acc < key y then y else acc) a) = a ∨
        (ys.foldl (fun acc y => if key acc < key y then y else acc) a) ∈ ys := by
    intro ys
    induction ys with
    | nil => intro a; left; rfl
    | cons hd tl ih =>
        intro a
        simp only [List.foldl_cons]
        by_cases hlt : key a < key hd
        · rw [if_pos hlt]
          rcases ih hd with h1 | h1
          · right; rw [h1]; exact List.mem_cons_self hd tl
          · right; exact List.mem_cons_of_mem hd h1
        · rw [if_neg hlt]
          rcases ih a with h1 | h1
          · left; exact h1
          · right; exact List.mem_cons_of_mem hd h1
  have bound : ∀ (ys : List ChatSessionSummary) (a : ChatSessionSummary),
      key a ≤ key (ys.foldl (fun acc y => if key acc < key y then y else acc) a) ∧
      ∀ y ∈ ys, key y ≤ key (ys.foldl (fun acc y => if key acc < key y then y else acc) a) := by
    intro ys
    induction ys with
    | nil => intro a; exact ⟨le_refl _, by intro y hy; cases hy⟩
    | cons hd tl ih =>
        intro a
        simp only [List.foldl_cons]
        by_cases hlt : key a < key hd
        · rw [if_pos hlt]
          refine ⟨le_trans (le_of_lt hlt) (ih hd).1, ?_⟩
          intro y hy
          rcases List.mem_cons.mp hy with hy1 | hy1
          · rw [hy1]; exact (ih hd).1
          · exact (ih hd).2 y hy1
        · rw [if_neg hlt]
          refine ⟨(ih a).1, ?_⟩
          intro y hy
          rcases List.mem_cons.mp hy with hy1 | hy1
          · rw [hy1]; exact le_trans (le_of_not_lt hlt) (ih a).1
          · exact (ih a).2 y hy1
  unfold pyMaxBy at h
  have hm : m = xs.foldl (fun acc y => if key acc < key y then y else acc) x :=
    (Option.some_inj.mp h).symm
  constructor
  · rcases step xs x with h1 | h1
    · rw [hm, h1]; exact List.mem_cons_self x xs
    · rw [hm]; exact List.mem_cons_of_mem x h1
  · intro y hy
    rcases List.mem_cons.mp hy with hy1 | hy1
    · rw [hy1, hm]; exact (bound xs x).1
    · rw [hm]; exact (bound xs x).2 y hy1

theorem pyMaxBy_eq_none_iff (key : ChatSessionSummary → Nat)
    (l : List ChatSessionSummary) : pyMaxBy key l = none ↔ l = [] := by
  cases l with
  | nil => simp [pyMaxBy]
  | cons x xs => simp [pyMaxBy]

/-! Claim theorems. -/

/-- C10: After load_messages(limit, page) the loaded slice contains at most
limit messages, contains no soft-deleted messages (and only messages of the
requested session), and is sorted in ascending creation-time order. The
downstream steps of a turn receive only this slice (threaded as the
session_messages argument through preprocess_query, should_summarize,
summarize_chat and prepare_context), never the full persisted history. -/
theorem claim10_loaded_slice_bounded_clean_ascending (db : Db) (sid limit page : Nat) :
    (load_messages db sid limit page).length ≤ limit ∧
    (∀ m ∈ load_messages db sid limit page, m.is_deleted = false ∧ m.session_id = sid) ∧
    (load_messages db sid limit page).Pairwise (fun a b => a.created_at ≤ b.created_at) := by
  refine ⟨?_, ?_, ?_⟩
  · unfold load_messages
    rw [List.length_reverse, List.length_take]
    exact min_le_left _ _
  · intro m hm
    have h := mem_load_messages hm
    exact ⟨h.2.2, h.2.1⟩
  · unfold load_messages
    rw [List.pairwise_reverse]
    have hsorted : List.Pairwise created_desc
        (order_by_created_desc
          (db.chat_message.filter (fun m => m.session_id == sid && m.is_deleted == false))) :=
      List.sorted_insertionSort created_desc _
    have hsub : List.Sublist
        (((order_by_created_desc
            (db.chat_message.filter (fun m => m.session_id == sid && m.is_deleted == false))).drop
              (page * limit)).take limit)
        (order_by_created_desc
          (db.chat_message.filter (fun m => m.session_id == sid && m.is_deleted == false))) :=
      List.Sublist.trans (List.take_sublist _ _) (List.drop_sublist _ _)
    exact (hsorted.sublist hsub).imp (fun h => h)

/-- C9 (amended): provided the summary table holds at most 1000 rows (the
get_all fetch limit), latest_summary returns none exactly when the session has
no summaries, and otherwise a summary of that session whose updated_at is
maximal among the summaries of that session. -/
theorem claim9_latest_summary_is_max (db : Db) (sid : Nat)
    (h : db.chat_session_summary.length ≤ 1000) :
    (get_latest_summary db sid = none ↔
      db.chat_session_summary.filter (fun s => s.session_id == sid) = []) ∧
    ∀ m, get_latest_summary db sid = some m →
      m ∈ db.chat_session_summary ∧ m.session_id = sid ∧
      ∀ s ∈ db.chat_session_summary, s.session_id = sid → s.updated_at ≤ m.updated_at := by
  have hall : get_all db 1000 = db.chat_session_summary := List.take_of_length_le h
  constructor
  · simp only [get_latest_summary, hall]
    exact pyMaxBy_eq_none_iff _ _
  · intro m hm
    simp only [get_latest_summary, hall] at hm
    cases hfil : db.chat_session_summary.filter (fun s => s.session_id == sid) with
    | nil => rw [hfil] at hm; cases hm
    | cons x xs =>
        rw [hfil] at hm
        have hspec := pyMaxBy_spec (fun s => s.updated_at) x xs hm
        have hmem_f : m ∈ db.chat_session_summary.filter (fun s => s.session_id == sid) := by
          rw [hfil]; exact hspec.1
        have hmf := List.mem_filter.mp hmem_f
        refine ⟨hmf.1, by simpa using hmf.2, ?_⟩
        intro s hs hsid
        have hsf : s ∈ db.chat_session_summary.filter (fun s => s.session_id == sid) :=
          List.mem_filter.mpr ⟨hs, by simp [hsid]⟩
        exact hspec.2 s (by rw [hfil] at hsf; exact hsf)

/-- Witness for C9: on a concrete three-summary store the hypothesis holds and
the returned summary for session 1 is the one updated at time 7. -/
theorem claim9_latest_summary_is_max_witness :
    c9db_small.chat_session_summary.length ≤ 1000 ∧
    get_latest_summary c9db_small 1 =
      some { c9_filler with id := 3, session_id := 1, updated_at := 7 } ∧
    (∀ m, get_latest_summary c9db_small 1 = some m →
      m ∈ c9db_small.chat_session_summary ∧ m.session_id = 1 ∧
      ∀ s ∈ c9db_small.chat_session_summary, s.session_id = 1 →
        s.updated_at ≤ m.updated_at) :=
  ⟨by decide, by decide, (claim9_latest_summary_is_max c9db_small 1 (by decide)).2⟩

set_option maxRecDepth 4000 in
/-- Counterexample for C9 as stated: latest_summary does not hold for every
state of the summary store. In a store whose summary table has 1001 rows, the
single summary of session 1 sits beyond the 1000-row fetch limit of get_all and
latest_summary returns none although the session has a summary. -/
theorem claim9_counterexample :
    c9_target ∈ c9db.chat_session_summary ∧ c9_target.session_id = 1 ∧
    get_latest_summary c9db 1 = none := by
  refine ⟨?_, rfl, ?_⟩
  · show c9_target ∈ List.replicate 1000 c9_filler ++ [c9_target]
    exact List.mem_append.mpr (Or.inr (List.mem_singleton.mpr rfl))
  · have htake : (List.replicate 1000 c9_filler ++ [c9_target]).take 1000 =
        List.replicate 1000 c9_filler := by
      have hlen : (List.replicate 1000 c9_filler).length = 1000 :=
        List.length_replicate 1000 c9_filler
      rw [← hlen]
      exact List.take_left _ _
    have hfil : (List.replicate 1000 c9_filler).filter (fun s => s.session_id == 1) = [] := by
      apply List.filter_eq_nil_iff.mpr
      intro a ha
      rw [List.eq_of_mem_replicate ha]
      decide
    simp only [get_latest_summary, get_all, c9db, htake, hfil]
    rfl

/-- C5: the compression window is the eligible turns (after skipping a single
leading system turn) minus the reserved last keep_recent turns: it is an initial
segment of the eligible turns, what remains of the eligible turns after it is
exactly the reserved tail of length min keep_recent (number of eligible turns),
and whenever the eligible-turn count is at most keep_recent, summarize_chat
returns none and leaves the store untouched for every extraction oracle — no
model call, no summary persisted — regardless of token count. -/
theorem claim5_window_shape_and_skip (keep_recent : Nat) (hk : 0 < keep_recent)
    (loaded : List MessageRow) :
    window loaded keep_recent =
      (loaded.drop (start_index loaded)).take
        ((loaded.drop (start_index loaded)).length - keep_recent) ∧
    window loaded keep_recent ++
      (loaded.drop (start_index loaded)).drop
        ((loaded.drop (start_index loaded)).length - keep_recent) =
      loaded.drop (start_index loaded) ∧
    ((loaded.drop (start_index loaded)).drop
        ((loaded.drop (start_index loaded)).length - keep_recent)).length =
      min keep_recent (loaded.drop (start_index loaded)).length ∧
    ∀ (oracle : String → SummaryContent) (db : Db) (sid : Nat) (delete_ok : Bool),
      (loaded.drop (start_index loaded)).length ≤ keep_recent →
      Summarizer.summarize_chat oracle keep_recent db sid loaded delete_ok =
        { summary := none, db := db, delete_ok := true } := by
  have hlen : (loaded.drop (start_index loaded)).length = loaded.length - start_index loaded :=
    List.length_drop _ _
  have hwin : window loaded keep_recent =
      (loaded.drop (start_index loaded)).take
        ((loaded.drop (start_index loaded)).length - keep_recent) := by
    unfold window to_summarize_slice
    rw [if_neg (Nat.pos_iff_ne_zero.mp hk), hlen, Nat.sub_right_comm]
  refine ⟨hwin, ?_, ?_, ?_⟩
  · rw [hwin]
    exact List.take_append_drop _ _
  · rw [List.length_drop, hlen]
    omega
  · intro oracle db sid delete_ok hle
    rw [hlen] at hle
    simp [Summarizer.summarize_chat, hle]

/-- Witness for C5: with the default keep_recent of 3 and a four-turn session
(system turn plus three eligible turns), summarize_chat skips: no summary and
an unchanged store. -/
theorem claim5_window_shape_and_skip_witness :
    0 < 3 ∧
    (c5_loaded.drop (start_index c5_loaded)).length ≤ 3 ∧
    Summarizer.summarize_chat (fun _ => fixture_content) 3 c1db 1 c5_loaded true =
      { summary := none, db := c1db, delete_ok := true } :=
  ⟨by decide, by decide,
    (claim5_window_shape_and_skip 3 (by decide) c5_loaded).2.2.2
      (fun _ => fixture_content) c1db 1 true (by decide)⟩

theorem mem_window {loaded : List MessageRow} {k : Nat} {w : MessageRow}
    (h : w ∈ window loaded k) : w ∈ loaded := by
  unfold window to_summarize_slice at h
  split at h
  · cases h
  · exact List.mem_of_mem_drop (List.mem_of_mem_take h)

theorem delete_many_summaries (db : Db) (sid : Nat) (ids : List Nat) :
    (delete_many db sid ids).chat_session_summary = db.chat_session_summary := by
  unfold delete_many
  split <;> rfl

theorem delete_many_message_map (db : Db) (sid : Nat) (ids : List Nat)
    (hses : ∀ m ∈ db.chat_message, m.id ∈ ids → m.session_id = sid) :
    (delete_many db sid ids).chat_message =
      db.chat_message.map (fun m =>
        if m.id ∈ ids then { m with is_deleted := true } else m) := by
  unfold delete_many
  split
  · next hnil =>
      subst hnil
      simp
  · next _ =>
      show db.chat_message.map _ = db.chat_message.map _
      apply List.map_congr_left
      intro m hm
      by_cases hid : m.id ∈ ids
      · rw [if_pos ⟨hses m hm hid, hid⟩, if_pos hid]
      · rw [if_neg (fun hc => hid hc.2), if_neg hid]

/-- C1: when summarization triggers on a loaded slice with more than keep_recent
eligible turns, the soft-deleting summarize_chat persists exactly one new
summary (extracted from the compression window) and then soft-deletes exactly
the turns of the compression window: the message table afterwards is the old
one with precisely the window ids marked deleted, so every subsequent
non-deleted read (load_messages, which feeds all context building) excludes
them; and when the soft-delete step fails after the summary was saved, the
already-persisted summary is not unwound. -/
theorem claim1_summary_persisted_then_window_soft_deleted
    (oracle : String → SummaryContent) (keep_recent : Nat) (db : Db) (sid : Nat)
    (loaded : List MessageRow)
    (hload : loaded = load_messages db sid 10 0)
    (hnodup : (db.chat_message.map (fun m => m.id)).Nodup)
    (htrig : keep_recent < loaded.length - start_index loaded) :
    (Summarizer.summarize_chat oracle keep_recent db sid loaded true).summary =
      some (create_summary oracle (window loaded keep_recent) sid db.clock) ∧
    (Summarizer.summarize_chat oracle keep_recent db sid loaded true).db.chat_session_summary =
      db.chat_session_summary ++ [create_summary oracle (window loaded keep_recent) sid db.clock] ∧
    (Summarizer.summarize_chat oracle keep_recent db sid loaded true).db.chat_message =
      db.chat_message.map (fun m =>
        if m.id ∈ (window loaded keep_recent).map (fun w => w.id) then
          { m with is_deleted := true } else m) ∧
    (∀ limit page m,
      m ∈ load_messages (Summarizer.summarize_chat oracle keep_recent db sid loaded true).db
            sid limit page →
      m.id ∉ (window loaded keep_recent).map (fun w => w.id)) ∧
    (Summarizer.summarize_chat oracle keep_recent db sid loaded false).summary =
      some (create_summary oracle (window loaded keep_recent) sid db.clock) ∧
    (Summarizer.summarize_chat oracle keep_recent db sid loaded false).db.chat_session_summary =
      db.chat_session_summary ++ [create_summary oracle (window loaded keep_recent) sid db.clock] := by
  have hguard : ¬(loaded.length - start_index loaded ≤ keep_recent) := not_le.mpr htrig
  have hrun : Summarizer.summarize_chat oracle keep_recent db sid loaded true =
      { summary := some (create_summary oracle (window loaded keep_recent) sid db.clock),
        db := delete_many
          { db with
            chat_session_summary := db.chat_session_summary ++
              [create_summary oracle (window loaded keep_recent) sid db.clock],
            clock := db.clock + 1 }
          sid ((window loaded keep_recent).map (fun m => m.id)),
        delete_ok := true } := by
    simp [Summarizer.summarize_chat, window, hguard]
  have hrunf : Summarizer.summarize_chat oracle keep_recent db sid loaded false =
      { summary := some (create_summary oracle (window loaded keep_recent) sid db.clock),
        db := { db with
          chat_session_summary := db.chat_session_summary ++
            [create_summary oracle (window loaded keep_recent) sid db.clock],
          clock := db.clock + 1 },
        delete_ok := false } := by
    simp [Summarizer.summarize_chat, window, hguard]
  have hses : ∀ m ∈ db.chat_message,
      m.id ∈ (window loaded keep_recent).map (fun w => w.id) → m.session_id = sid := by
    intro m hm hid
    obtain ⟨w, hw, hwid⟩ := List.mem_map.mp hid
    have hwl : w ∈ loaded := mem_window hw
    have hwdb := mem_load_messages (hload ▸ hwl)
    have hmw : m = w := nodup_map_mem_eq hnodup hm hwdb.1 (by rw [hwid])
    rw [hmw]
    exact hwdb.2.1
  have hmsg : (Summarizer.summarize_chat oracle keep_recent db sid loaded true).db.chat_message =
      db.chat_message.map (fun m =>
        if m.id ∈ (window loaded keep_recent).map (fun w => w.id) then
          { m with is_deleted := true } else m) := by
    rw [hrun]
    exact delete_many_message_map _ _ _ hses
  refine ⟨by rw [hrun], ?_, hmsg, ?_, by rw [hrunf], by rw [hrunf]⟩
  · rw [hrun, delete_many_summaries]
  · intro limit page m hm hid
    have h1 := mem_load_messages hm
    obtain ⟨o, ho, hgo⟩ := List.mem_map.mp (hmsg ▸ h1.1)
    by_cases hoid : o.id ∈ (window loaded keep_recent).map (fun w => w.id)
    · rw [if_pos hoid] at hgo
      have hdel : m.is_deleted = true := by rw [← hgo]
      rw [h1.2.2] at hdel
      cases hdel
    · rw [if_neg hoid] at hgo
      rw [← hgo] at hid
      exact hoid hid

/-- Witness for C1: on a six-turn store for session 1 with keep_recent 3, the
run persists the extracted summary and the message table afterwards is the old
one with exactly the two window ids marked deleted. -/
theorem claim1_summary_persisted_then_window_soft_deleted_witness :
    ((c1db.chat_message.map (fun m => m.id)).Nodup) ∧
    (3 < (load_messages c1db 1 10 0).length - start_index (load_messages c1db 1 10 0)) ∧
    (Summarizer.summarize_chat (fun _ => fixture_content) 3 c1db 1
        (load_messages c1db 1 10 0) true).db.chat_message =
      c1db.chat_message.map (fun m =>
        if m.id ∈ ((window (load_messages c1db 1 10 0) 3).map (fun w => w.id)) then
          { m with is_deleted := true } else m) ∧
    (Summarizer.summarize_chat (fun _ => fixture_content) 3 c1db 1
        (load_messages c1db 1 10 0) false).db.chat_session_summary =
      c1db.chat_session_summary ++
        [create_summary (fun _ => fixture_content) (window (load_messages c1db 1 10 0) 3) 1
          c1db.clock] :=
  ⟨by decide, by decide,
    (claim1_summary_persisted_then_window_soft_deleted (fun _ => fixture_content) 3 c1db 1
      (load_messages c1db 1 10 0) rfl (by decide) (by decide)).2.2.1,
    (claim1_summary_persisted_then_window_soft_deleted (fun _ => fixture_content) 3 c1db 1
      (load_messages c1db 1 10 0) rfl (by decide) (by decide)).2.2.2.2.2⟩

/-- C3 (amended): the prompt actually assembled for the model by
ChatService._prepare_context is exactly: the fixed system prompt message; if a
summary is present, one system message carrying the full JSON dump of the
summary (all fields, empty or not); then the last MAX_CONTEXT_MESSAGES turns
oldest-first mapped to user/assistant messages by role with system-role turns
dropped. No final query message is appended: the user query reaches the model
only as the just-persisted last turn inside the window, and a rewritten query
is never included (the build_messages assembler that implements the claimed
final-query shape is not wired into the pipeline). -/
theorem claim3_prepare_context_shape (system_prompt : String)
    (session_messages : List MessageRow) (summary : Option ChatSessionSummary)
    (max_context_messages : Nat) :
    prepare_context system_prompt session_messages summary max_context_messages =
      [LCMessage.system system_prompt] ++
      (match summary with
       | some s => [LCMessage.system ("[Session Memory]\n" ++ summary_model_dump_json s)]
       | none => []) ++
      (lastN session_messages max_context_messages).filterMap role_to_lc := by
  cases summary with
  | none =>
      simp only [prepare_context]
      rw [foldl_role_to_lc]
      simp
  | some s =>
      simp only [prepare_context]
      rw [foldl_role_to_lc]

/-- Counterexample for C3 as stated: on a concrete run with a summary present,
two recent turns and a classification carrying the rewrite REWRITTEN, the
context the pipeline prepares for the model ends with the persisted user turn
(the original query) and contains no final user message with the rewritten
query. -/
theorem claim3_counterexample :
    (classified default_settings (fixture_oracles c3_rewritten) c3db 1 "hi").rewritten_query =
      some "REWRITTEN" ∧
    (get_latest_summary c3db 1).isSome = true ∧
    (preprocess_query default_settings (fixture_oracles c3_rewritten) c3db 1 "hi"
        "SYS").outcome.isReady = true ∧
    ((preprocess_query default_settings (fixture_oracles c3_rewritten) c3db 1 "hi"
        "SYS").outcome.ctx).getLast? = some (LCMessage.human "hi") ∧
    LCMessage.human "REWRITTEN" ∉
      (preprocess_query default_settings (fixture_oracles c3_rewritten) c3db 1 "hi"
        "SYS").outcome.ctx := by
  decide

/-- C7 (amended): the summary system message built by
ContextAugmentService.build_messages renders only the non-empty among the key
facts and the open questions; decisions, todos and the user profile are never
rendered; and when both rendered fields are empty the summary message is
omitted entirely (no empty headers). -/
theorem claim7_memory_renders_facts_and_questions_only (system_prompt : String)
    (session_messages : List MessageRow) (s : ChatSessionSummary)
    (query_result : QueryRewriting) (keep_recent : Nat) :
    build_messages system_prompt session_messages (some s) query_result keep_recent =
      [LCMessage.system system_prompt] ++
      (if s.key_facts = [] ∧ s.open_questions = [] then []
       else [LCMessage.system (memory_text s.key_facts s.open_questions)]) ++
      (lastN session_messages keep_recent).filterMap role_to_lc ++
      [LCMessage.human (final_query query_result)] := by
  by_cases h1 : s.key_facts = [] <;> by_cases h2 : s.open_questions = [] <;>
    simp only [build_messages, memory_text, h1, h2] <;>
    rw [foldl_role_to_lc] <;>
    simp [h1, h2]

/-- Counterexample for C7 as stated: a summary whose decisions, todos and user
profile are non-empty while key facts and open questions are empty produces no
summary system message at all — the non-empty decisions, todos and user-profile
fields are never rendered. -/
theorem claim7_counterexample :
    c7_summary.decisions ≠ [] ∧ c7_summary.todos ≠ [] ∧
    c7_summary.user_profile.preferences ≠ [] ∧
    build_messages "SYS" [] (some c7_summary) (clear_result "oq") 3 =
      [LCMessage.system "SYS", LCMessage.human "oq"] := by
  decide

theorem exists_suffix_append1 {α : Type} (l a : List α) :
    ∃ rest, l ++ a = l ++ rest := ⟨a, rfl⟩

theorem exists_suffix_append5 {α : Type} (l a b c d e : List α) :
    ∃ rest, ((((l ++ a) ++ b) ++ c) ++ d) ++ e = l ++ rest :=
  ⟨a ++ (b ++ (c ++ (d ++ e))), by simp [List.append_assoc]⟩

theorem exists_suffix_append5_keep1 {α : Type} (l a b c d e : List α) :
    ∃ rest, ((((l ++ a) ++ b) ++ c) ++ d) ++ e = (l ++ a) ++ rest :=
  ⟨b ++ (c ++ (d ++ e)), by simp [List.append_assoc]⟩

/-- C2 (amended): on every turn whose session exists, the pipeline first loads
the session and its messages and the latest summary, then classifies the query,
and only then persists the user turn — classification precedes the persist, the
reverse of the claimed order; the summarization check runs after the persist
and only on the non-early path (it is the step right after the first five), and
no summarization check happens at all on the early-clarification path. -/
theorem claim2_classify_then_persist_then_summary_check (st : Settings) (orc : Oracles)
    (db : Db) (chat_id : Nat) (user_message system_prompt : String) (session : SessionRow)
    (hs : get_by_id db chat_id = some session) :
    (∃ rest, (preprocess_query st orc db chat_id user_message system_prompt).trace =
      [Ev.get_session_by_id, Ev.load_messages_ev, Ev.get_latest_summary_ev,
       Ev.classify_llm, Ev.append_user user_message] ++ rest) ∧
    ((preprocess_query st orc db chat_id user_message system_prompt).outcome.isReady = true →
      ∃ rest, (preprocess_query st orc db chat_id user_message system_prompt).trace =
        [Ev.get_session_by_id, Ev.load_messages_ev, Ev.get_latest_summary_ev,
         Ev.classify_llm, Ev.append_user user_message, Ev.summary_check] ++ rest) ∧
    ((preprocess_query st orc db chat_id user_message system_prompt).outcome.isEarly = true →
      Ev.summary_check ∉ (preprocess_query st orc db chat_id user_message system_prompt).trace) := by
  refine ⟨?_, ?_, ?_⟩ <;> simp only [preprocess_query, hs] <;> split
  · exact exists_suffix_append1 _ _
  · exact exists_suffix_append5 _ _ _ _ _ _
  · intro h
    simp [Outcome.isReady] at h
  · intro _
    exact exists_suffix_append5_keep1 _ _ _ _ _ _
  · intro _
    simp
  · intro h
    simp [Outcome.isEarly] at h

/-- Witness for C2 (amended): on a concrete existing session the three
conclusions hold. -/
theorem claim2_classify_then_persist_then_summary_check_witness :
    get_by_id c3db 1 = some { id := 1, name := "s", created_at := 0, is_deleted := false } ∧
    (∃ rest,
      (preprocess_query default_settings (fixture_oracles (clear_result "hi")) c3db 1 "hi"
        "SYS").trace =
      [Ev.get_session_by_id, Ev.load_messages_ev, Ev.get_latest_summary_ev,
       Ev.classify_llm, Ev.append_user "hi"] ++ rest) :=
  ⟨by decide,
    (claim2_classify_then_persist_then_summary_check default_settings
      (fixture_oracles (clear_result "hi")) c3db 1 "hi" "SYS"
      { id := 1, name := "s", created_at := 0, is_deleted := false } (by decide)).1⟩

/-- Counterexample for C2 as stated: on a concrete run the classification event
sits at index 3 of the trace and the user-turn persist at index 4, and the
summarization check at index 5 — so the user turn is not appended to the store
before the classification step, and the summarization check does not precede
classification either. -/
theorem claim2_counterexample :
    ((preprocess_query default_settings (fixture_oracles (clear_result "hi")) c3db 1 "hi"
        "SYS").trace.findIdx (fun e => e == Ev.classify_llm) = 3) ∧
    ((preprocess_query default_settings (fixture_oracles (clear_result "hi")) c3db 1 "hi"
        "SYS").trace.findIdx (fun e => e == Ev.append_user "hi") = 4) ∧
    ((preprocess_query default_settings (fixture_oracles (clear_result "hi")) c3db 1 "hi"
        "SYS").trace.findIdx (fun e => e == Ev.summary_check) = 5) ∧
    ¬ ((preprocess_query default_settings (fixture_oracles (clear_result "hi")) c3db 1 "hi"
        "SYS").trace.findIdx (fun e => e == Ev.append_user "hi") <
       (preprocess_query default_settings (fixture_oracles (clear_result "hi")) c3db 1 "hi"
        "SYS").trace.findIdx (fun e => e == Ev.classify_llm)) := by
  decide

/-- C4 (amended): nothing in the code validates or normalizes the
mutual-exclusion invariant — QueryRewriting carries no validator, classify
returns the parsed model output unchanged, and _preprocess_query branches on
the raw fields, so invariant-violating results are acted on as they are.
What does hold is that the branch structure makes a present rewrite
authoritative: when the classification carries a rewritten query, the run is
identical to the run on the same result with the clarifying questions
discarded, and the early ask-the-user path is not taken. -/
theorem claim4_present_rewrite_ignores_clarifications (st : Settings) (orc : Oracles)
    (db : Db) (chat_id : Nat) (user_message system_prompt : String) (session : SessionRow)
    (r : String)
    (hs : get_by_id db chat_id = some session)
    (hr : (classified st orc db session.id user_message).rewritten_query = some r) :
    preprocess_query st orc db chat_id user_message system_prompt =
      preprocess_query st
        { orc with classify := fun a b c => discard_clarifications (orc.classify a b c) }
        db chat_id user_message system_prompt ∧
    (preprocess_query st orc db chat_id user_message system_prompt).outcome.isEarly = false := by
  have h1 : ¬((classified st orc db session.id user_message).is_ambiguous = true ∧
      (classified st orc db session.id user_message).rewritten_query = none) := by
    intro hc
    have := hc.2
    rw [hr] at this
    exact Option.noConfusion this
  have h2 : ¬((classified st
        { orc with classify := fun a b c => discard_clarifications (orc.classify a b c) }
        db session.id user_message).is_ambiguous = true ∧
      (classified st
        { orc with classify := fun a b c => discard_clarifications (orc.classify a b c) }
        db session.id user_message).rewritten_query = none) := by
    intro hc
    have h3 : (classified st
        { orc with classify := fun a b c => discard_clarifications (orc.classify a b c) }
        db session.id user_message).rewritten_query =
        (classified st orc db session.id user_message).rewritten_query := rfl
    have := hc.2
    rw [h3, hr] at this
    exact Option.noConfusion this
  constructor
  · simp only [preprocess_query, hs]
    rw [if_neg h1, if_neg h2]
  · simp only [preprocess_query, hs]
    rw [if_neg h1]
    rfl

/-- Witness for C4 (amended): a concrete classification carrying both a rewrite
and a stray clarifying question takes the non-early path. -/
theorem claim4_present_rewrite_ignores_clarifications_witness :
    (classified default_settings (fixture_oracles c4_rewrite_with_stray) c3db 1
        "hi").rewritten_query = some "rw" ∧
    (preprocess_query default_settings (fixture_oracles c4_rewrite_with_stray) c3db 1 "hi"
        "SYS").outcome.isEarly = false :=
  ⟨by decide,
    (claim4_present_rewrite_ignores_clarifications default_settings
      (fixture_oracles c4_rewrite_with_stray) c3db 1 "hi" "SYS"
      { id := 1, name := "s", created_at := 0, is_deleted := false } "rw"
      (by decide) (by decide)).2⟩

/-- Counterexample for C4 as stated: the pipeline acts on a DisambiguationResult
that violates the mutual-exclusion invariant (ambiguous, no rewrite, no
clarifying questions) without any normalization — it synthesizes a degenerate
clarification from the empty question list instead of rejecting or repairing
the inconsistent value. -/
theorem claim4_counterexample :
    ¬ disambiguation_exclusivity c4_violating ∧
    (preprocess_query default_settings (fixture_oracles c4_violating) c3db 1 "hi"
        "SYS").outcome = Outcome.early (clarification_text []) := by
  decide

theorem add_message_pair_mem (db : Db) (msgs : List MessageRow) (sid : Nat)
    (role : Role) (content : String) :
    (role, content) ∈
      (add_message db msgs sid role content).1.chat_message.map
        (fun m => (m.role, m.content)) := by
  simp [add_message]

/-- C6: whenever classification returns ambiguous with no rewritten query,
send_message returns the clarification text synthesized from the clarifying
questions, that text is persisted as an assistant turn, and the model
text-generation call is never made for that turn. -/
theorem claim6_clarification_short_circuit (st : Settings) (orc : Oracles) (db : Db)
    (chat_id : Nat) (user_message system_prompt : String) (session : SessionRow)
    (hs : get_by_id db chat_id = some session)
    (hq : (classified st orc db session.id user_message).is_ambiguous = true)
    (hr : (classified st orc db session.id user_message).rewritten_query = none) :
    (send_message st orc db chat_id user_message system_prompt).result =
      Except.ok (clarification_text
        (classified st orc db session.id user_message).clarifying_questions) ∧
    Ev.append_assistant (clarification_text
        (classified st orc db session.id user_message).clarifying_questions) ∈
      (send_message st orc db chat_id user_message system_prompt).trace ∧
    Ev.generate_llm ∉ (send_message st orc db chat_id user_message system_prompt).trace ∧
    (Role.assistant, clarification_text
        (classified st orc db session.id user_message).clarifying_questions) ∈
      (send_message st orc db chat_id user_message system_prompt).db.chat_message.map
        (fun m => (m.role, m.content)) := by
  have hcond : (classified st orc db session.id user_message).is_ambiguous = true ∧
      (classified st orc db session.id user_message).rewritten_query = none := ⟨hq, hr⟩
  refine ⟨?_, ?_, ?_, ?_⟩ <;> simp only [send_message, preprocess_query, hs] <;>
    rw [if_pos hcond]
  · simp
  · simp
  · exact add_message_pair_mem
      (add_message db (load_messages db session.id 10 0) session.id Role.user user_message).1
      (add_message db (load_messages db session.id 10 0) session.id Role.user user_message).2
      session.id Role.assistant
      (clarification_text (classified st orc db session.id user_message).clarifying_questions)

/-- Witness for C6: a concrete ambiguous-no-rewrite classification with two
questions short-circuits send_message with the synthesized clarification and no
generation call. -/
theorem claim6_clarification_short_circuit_witness :
    (classified default_settings (fixture_oracles c6_ambiguous) c3db 1 "hi").is_ambiguous =
      true ∧
    (send_message default_settings (fixture_oracles c6_ambiguous) c3db 1 "hi" "SYS").result =
      Except.ok (clarification_text ["q1", "q2"]) ∧
    Ev.generate_llm ∉
      (send_message default_settings (fixture_oracles c6_ambiguous) c3db 1 "hi" "SYS").trace :=
  ⟨by decide,
    (claim6_clarification_short_circuit default_settings (fixture_oracles c6_ambiguous) c3db 1
      "hi" "SYS" { id := 1, name := "s", created_at := 0, is_deleted := false }
      (by decide) (by decide) (by decide)).1,
    (claim6_clarification_short_circuit default_settings (fixture_oracles c6_ambiguous) c3db 1
      "hi" "SYS" { id := 1, name := "s", created_at := 0, is_deleted := false }
      (by decide) (by decide) (by decide)).2.2.1⟩

/-- C8 (amended): when the referenced session id does not exist, send_message
fails with the "Session ... not found" error (mapped by the API layer to a 404)
and the store is untouched — in particular no assistant turn is created.
Soft-deleted sessions, however, are not rejected: get_by_id carries no
is_deleted filter, so they are served normally (see the counterexample). -/
theorem claim8_nonexistent_session_fails (st : Settings) (orc : Oracles) (db : Db)
    (chat_id : Nat) (user_message system_prompt : String)
    (h : get_by_id db chat_id = none) :
    send_message st orc db chat_id user_message system_prompt =
      { db := db, trace := [Ev.get_session_by_id],
        result := Except.error ("Session " ++ toString chat_id ++ " not found") } := by
  simp only [send_message, preprocess_query, h]

/-- Witness for C8 (amended): on an empty store, sending to session 5 fails
with the not-found error and an untouched store. -/
theorem claim8_nonexistent_session_fails_witness :
    get_by_id c8empty 5 = none ∧
    send_message default_settings (fixture_oracles (clear_result "hi")) c8empty 5 "hi" "SYS" =
      { db := c8empty, trace := [Ev.get_session_by_id],
        result := Except.error "Session 5 not found" } :=
  ⟨by decide,
    claim8_nonexistent_session_fails default_settings (fixture_oracles (clear_result "hi"))
      c8empty 5 "hi" "SYS" (by decide)⟩

/-- Counterexample for C8 as stated: a soft-deleted session is still found by
get_by_id (no is_deleted filter) and send_message serves it normally instead of
failing with the session-not-found error. -/
theorem claim8_counterexample :
    get_by_id c8db 7 = some { id := 7, name := "gone", created_at := 0, is_deleted := true } ∧
    (send_message default_settings (fixture_oracles (clear_result "hi")) c8db 7 "hi"
        "SYS").result = Except.ok "REPLY" := by
  decide
